import Mathlib

/-!
Verification development for the Bragi Builder deployment lifecycle engine.

The definitions below are a shallow embedding of the Python sources:
  * `src/deployment_store.py`  — the durable History Store (SQLite table
    `deployments`, `DeploymentRecord`, create/get/update and aggregates);
  * `src/deployment_manager.py` — the Submitter (`deploy_template`), the
    diagnostics extractor (`get_deployment_errors`) and the Deletion
    Tracker (`check_delete_progress`);
  * `app.py`                  — the Poller (`monitor_deployment_status`),
    its coalesced emission policy and its registry-cleanup `finally` block.

Modelling conventions:
  * Python `datetime` values are modelled as `Nat` (seconds).  The SQLite
    round trip `str(datetime)` / `datetime.fromisoformat` is lossless, so
    the timestamp columns are embedded as the identity.
  * Opaque JSON blobs (parameters / outputs / error_details) are
    application-opaque in the source; they are modelled by their canonical
    serialisation as a list of tokens (`Blob`).  The only property of a
    blob the source ever consults is Python truthiness, which for a dict
    or list is non-emptiness; `json.dumps x if x else None` followed by
    `json.loads` on read is therefore `dumpsIfTruthy`.
  * SQLite REAL columns hold Python floats that round-trip exactly for the
    values the program stores; they are modelled as `Rat`.
-/

/-- Terminal provisioning states, per the state vocabulary used throughout
`app.py` (`['Succeeded', 'Failed', 'Canceled']`). -/
def isTerminal (s : String) : Bool :=
  s == "Succeeded" || s == "Failed" || s == "Canceled"

/-- Opaque JSON blob, modelled by its canonical serialisation tokens.
Python dict/list truthiness is non-emptiness of this list. -/
abbrev Blob := List String

/-- Embedding of `json.dumps(value) if value else None` composed with
`json.loads(cell) if cell else None` on read-back: a missing or falsy
(empty) blob is stored as SQL NULL, a truthy blob round-trips intact. -/
def dumpsIfTruthy (b : Option Blob) : Option Blob :=
  match b with
  | some v => if v.isEmpty then none else some v
  | none => none

/-- Association-list lookup for the various string-keyed registries
(`deployment_statuses`, `DeploymentManager.deployments`,
`delete_operations`).  Python dicts have unique keys; lookup returns the
binding for the key if present. -/
def lookupReg {β : Type} : List (String × β) → String → Option β
  | [], _ => none
  | p :: rest, key => if p.1 == key then some p.2 else lookupReg rest key

/-- Embedding of `del reg[key]` on a Python dict. -/
def eraseReg {β : Type} (reg : List (String × β)) (key : String) : List (String × β) :=
  reg.filter (fun p => p.1 != key)

/-- Embedding of an in-place mutation `reg[key][...] = ...` of the entry
stored under `key` (a no-op when the key is absent). -/
def mutateReg {β : Type} (reg : List (String × β)) (key : String) (f : β → β) :
    List (String × β) :=
  reg.map (fun p => if p.1 == key then (p.1, f p.2) else p)

/-- Embedding of `reg[key] = v` on a Python dict (replace or append). -/
def insertReg {β : Type} (reg : List (String × β)) (key : String) (v : β) :
    List (String × β) :=
  if (reg.find? (fun p => p.1 == key)).isSome then
    reg.map (fun p => if p.1 == key then (p.1, v) else p)
  else
    reg ++ [(key, v)]

/-- Embedding of the `DeploymentRecord` dataclass of
`src/deployment_store.py` (same fields, same defaults). -/
structure DeploymentRecord where
  id : Option Nat := none
  deployment_name : String := ""
  resource_group : String := ""
  template_name : String := ""
  location : String := ""
  project : String := ""
  environment : String := ""
  status : String := ""
  start_time : Option Nat := none
  end_time : Option Nat := none
  duration_seconds : Option Int := none
  user_initiated : String := ""
  parameters : Option Blob := none
  outputs : Option Blob := none
  error_details : Option Blob := none
  resource_count : Int := 0
  resource_types : Option (List String) := none
  retry_count : Int := 0
  estimated_cost : Option Rat := none
  validation_passed : Bool := true
  vnet_address_space : Option String := none
  sql_password_complexity : Bool := true
  created_at : Option Nat := none
  updated_at : Option Nat := none
  deriving DecidableEq, Repr

/-- One row of the SQLite `deployments` table: the 24 columns in schema
order.  Blob columns hold the deserialised value of the stored JSON text
(`none` encodes SQL NULL, as produced by `dumpsIfTruthy`). -/
structure Row where
  id : Nat
  deployment_name : String
  resource_group : String
  template_name : String
  location : String
  project : String
  environment : String
  status : String
  start_time : Option Nat
  end_time : Option Nat
  duration_seconds : Option Int
  user_initiated : String
  parameters : Option Blob
  outputs : Option Blob
  error_details : Option Blob
  resource_count : Int
  resource_types : Option (List String)
  retry_count : Int
  estimated_cost : Option Rat
  validation_passed : Bool
  vnet_address_space : Option String
  sql_password_complexity : Bool
  created_at : Option Nat
  updated_at : Option Nat
  deriving DecidableEq, Repr

/-- State of the `DeploymentStore`: the `deployments` table in rowid
(insertion) order, plus the next AUTOINCREMENT id. -/
structure Store where
  rows : List Row := []
  nextId : Nat := 1
  deriving DecidableEq, Repr

/-- Fresh store, as produced by `init_database` on an empty file. -/
def Store.empty : Store := {}

/-- Embedding of `DeploymentStore.create_deployment`: stamps
`created_at`/`updated_at` with the current time, serialises the opaque
columns with Python-truthiness (`json.dumps(v) if v else None`), inserts
the row, and returns `(store, cursor.lastrowid)`. -/
def create_deployment (store : Store) (record : DeploymentRecord) (now : Nat) :
    Store × Nat :=
  let row : Row :=
    { id := store.nextId
      deployment_name := record.deployment_name
      resource_group := record.resource_group
      template_name := record.template_name
      location := record.location
      project := record.project
      environment := record.environment
      status := record.status
      start_time := record.start_time
      end_time := record.end_time
      duration_seconds := record.duration_seconds
      user_initiated := record.user_initiated
      parameters := dumpsIfTruthy record.parameters
      outputs := dumpsIfTruthy record.outputs
      error_details := dumpsIfTruthy record.error_details
      resource_count := record.resource_count
      resource_types := dumpsIfTruthy record.resource_types
      retry_count := record.retry_count
      estimated_cost := record.estimated_cost
      validation_passed := record.validation_passed
      vnet_address_space := record.vnet_address_space
      sql_password_complexity := record.sql_password_complexity
      created_at := some now
      updated_at := some now }
  ({ rows := store.rows ++ [row], nextId := store.nextId + 1 }, store.nextId)

/-- Embedding of `DeploymentStore._row_to_record`: deserialises a row back
into a `DeploymentRecord` (`json.loads` on the blob columns is the
identity on our canonical representation). -/
def row_to_record (row : Row) : DeploymentRecord :=
  { id := some row.id
    deployment_name := row.deployment_name
    resource_group := row.resource_group
    template_name := row.template_name
    location := row.location
    project := row.project
    environment := row.environment
    status := row.status
    start_time := row.start_time
    end_time := row.end_time
    duration_seconds := row.duration_seconds
    user_initiated := row.user_initiated
    parameters := row.parameters
    outputs := row.outputs
    error_details := row.error_details
    resource_count := row.resource_count
    resource_types := row.resource_types
    retry_count := row.retry_count
    estimated_cost := row.estimated_cost
    validation_passed := row.validation_passed
    vnet_address_space := row.vnet_address_space
    sql_password_complexity := row.sql_password_complexity
    created_at := row.created_at
    updated_at := row.updated_at }

/-- Embedding of `DeploymentStore.get_deployment`:
`SELECT * FROM deployments WHERE deployment_name = ?` followed by
`fetchone()` returns the first matching row in rowid order. -/
def get_deployment (store : Store) (deployment_name : String) :
    Option DeploymentRecord :=
  (store.rows.find? (fun r => r.deployment_name == deployment_name)).map row_to_record

/-- An `updates` dict passed to `DeploymentStore.update_deployment`: each
field is `some v` when the corresponding column key is present in the
dict with value `v`, and `none` when the key is absent.  For the
`updated_at` key only presence matters — the source discards the supplied
value and stores `datetime.datetime.now()` instead. -/
structure UpdateFields where
  deployment_name : Option String := none
  resource_group : Option String := none
  template_name : Option String := none
  location : Option String := none
  project : Option String := none
  environment : Option String := none
  status : Option String := none
  start_time : Option (Option Nat) := none
  end_time : Option (Option Nat) := none
  duration_seconds : Option (Option Int) := none
  user_initiated : Option String := none
  parameters : Option (Option Blob) := none
  outputs : Option (Option Blob) := none
  error_details : Option (Option Blob) := none
  resource_count : Option Int := none
  resource_types : Option (Option (List String)) := none
  retry_count : Option Int := none
  estimated_cost : Option (Option Rat) := none
  validation_passed : Option Bool := none
  vnet_address_space : Option (Option String) := none
  sql_password_complexity : Option Bool := none
  touch_updated_at : Bool := false
  deriving DecidableEq, Repr

/-- Set-clause check of `update_deployment`: with an empty `updates` dict
the function returns `False` without touching the table. -/
def UpdateFields.hasFields (u : UpdateFields) : Bool :=
  u.deployment_name.isSome || u.resource_group.isSome || u.template_name.isSome ||
  u.location.isSome || u.project.isSome || u.environment.isSome ||
  u.status.isSome || u.start_time.isSome || u.end_time.isSome ||
  u.duration_seconds.isSome || u.user_initiated.isSome || u.parameters.isSome ||
  u.outputs.isSome || u.error_details.isSome || u.resource_count.isSome ||
  u.resource_types.isSome || u.retry_count.isSome || u.estimated_cost.isSome ||
  u.validation_passed.isSome || u.vnet_address_space.isSome ||
  u.sql_password_complexity.isSome || u.touch_updated_at

/-- Effect of an `updates` entry for one of the four opaque columns
(`parameters`, `outputs`, `error_details`, `resource_types`): a present
key stores `json.dumps(value) if value else None`, an absent key leaves
the column. -/
def blobColUpdate (field : Option (Option Blob)) (old : Option Blob) : Option Blob :=
  match field with
  | some v => dumpsIfTruthy v
  | none => old

/-- Effect of the generated `SET` clause on one matching row: present keys
overwrite the column (blob keys through `json.dumps(value) if value else
None`, the `updated_at` key with the current time), absent keys leave the
column unchanged. -/
def applyUpdate (u : UpdateFields) (now : Nat) (row : Row) : Row :=
  { row with
    deployment_name := u.deployment_name.getD row.deployment_name
    resource_group := u.resource_group.getD row.resource_group
    template_name := u.template_name.getD row.template_name
    location := u.location.getD row.location
    project := u.project.getD row.project
    environment := u.environment.getD row.environment
    status := u.status.getD row.status
    start_time := u.start_time.getD row.start_time
    end_time := u.end_time.getD row.end_time
    duration_seconds := u.duration_seconds.getD row.duration_seconds
    user_initiated := u.user_initiated.getD row.user_initiated
    parameters := blobColUpdate u.parameters row.parameters
    outputs := blobColUpdate u.outputs row.outputs
    error_details := blobColUpdate u.error_details row.error_details
    resource_count := u.resource_count.getD row.resource_count
    resource_types := blobColUpdate u.resource_types row.resource_types
    retry_count := u.retry_count.getD row.retry_count
    estimated_cost := u.estimated_cost.getD row.estimated_cost
    validation_passed := u.validation_passed.getD row.validation_passed
    vnet_address_space := u.vnet_address_space.getD row.vnet_address_space
    sql_password_complexity := u.sql_password_complexity.getD row.sql_password_complexity
    updated_at := if u.touch_updated_at then some now else row.updated_at }

/-- Embedding of `DeploymentStore.update_deployment`: applies the `SET`
clause to every row whose `deployment_name` matches (the column carries
no UNIQUE constraint) and returns the new table together with
`cursor.rowcount > 0`. -/
def update_deployment (store : Store) (deployment_name : String)
    (u : UpdateFields) (now : Nat) : Store × Bool :=
  if u.hasFields then
    let matched := store.rows.any (fun r => r.deployment_name == deployment_name)
    ({ store with
        rows := store.rows.map (fun r =>
          if r.deployment_name == deployment_name then applyUpdate u now r else r) },
      matched)
  else
    (store, false)

/-- Scalar aggregates returned by
`DeploymentStore.get_deployment_statistics`.  The histogram, recent-window
and error-sample entries of the returned dict are presentation data not
referenced by any claim and are omitted; `average_duration_seconds` is
the raw `AVG(...)` value (the source additionally applies `round(·, 2)`
for display). -/
structure DeploymentStatistics where
  total_deployments : Nat
  successful_deployments : Nat
  failed_deployments : Nat
  running_deployments : Nat
  success_rate : Rat
  average_duration_seconds : Rat
  deriving Repr

/-- Embedding of the query
`SELECT AVG(duration_seconds) FROM deployments WHERE status IN
('Succeeded', 'Failed') AND duration_seconds IS NOT NULL`, with the
source's `or 0` replacing the NULL average of an empty selection. -/
def sqlAvgDuration (rows : List Row) : Rat :=
  let ds := rows.filterMap (fun r =>
    if r.status == "Succeeded" || r.status == "Failed" then r.duration_seconds
    else none)
  if ds.isEmpty then 0 else ((ds.sum : Int) : Rat) / (ds.length : Rat)

/-- Embedding of `DeploymentStore.get_deployment_statistics` (scalar
part). -/
def get_deployment_statistics (store : Store) : DeploymentStatistics :=
  let total := store.rows.length
  let succ := (store.rows.filter (fun r => r.status == "Succeeded")).length
  let failed := (store.rows.filter (fun r => r.status == "Failed")).length
  let running := (store.rows.filter (fun r => r.status == "Running")).length
  { total_deployments := total
    successful_deployments := succ
    failed_deployments := failed
    running_deployments := running
    success_rate := if total > 0 then (succ : Rat) / (total : Rat) * 100 else 0
    average_duration_seconds := sqlAvgDuration store.rows }

/-- An entry of `DeploymentManager.deployments` (the in-memory deployment
registry).  `deploy_template` stores the first six fields; the status
monitor and reconciler later add/overwrite the optional ones.  Keys that
a given code path never wrote are `none`, matching an absent dict key. -/
structure DepInfo where
  template_name : String := "unknown"
  resource_group : String := ""
  parameters : Option Blob := none
  status : String := ""
  start_time : Option Nat := none
  operation : Nat := 0
  timestamp : Option String := none
  outputs : Option Blob := none
  error_details : Option Blob := none
  location : Option String := none
  project : Option String := none
  environment : Option String := none
  deriving DecidableEq, Repr

/-- Outcome of `TemplateManager.get_template` / `validate_template` for a
stored template, modelled by the validation errors the structural check
reports (`validation["valid"]` is `len(errors) == 0`). -/
structure ArmTemplate where
  validation_errors : List String := []
  deriving DecidableEq, Repr

/-- Errors raised synchronously by `DeploymentManager.deploy_template`:
unknown template name, template validation failure, or a Gateway
rejection of the start call (re-raised as
`Failed to deploy template: ...`). -/
inductive DeployError where
  | templateNotFound (template_name : String)
  | validationFailed (errors : List String)
  | submissionFailed (msg : String)
  deriving DecidableEq, Repr

/-- Successful result dict of `deploy_template`:
`{deployment_name, status: "started", message}`. -/
structure DeployResult where
  deployment_name : String
  status : String := "started"
  message : String := "Deployment started successfully"
  deriving DecidableEq, Repr

/-- Embedding of `DeploymentManager.deploy_template`.  Inputs that the
source obtains from collaborators are passed explicitly: the template
collection (with each template's validation outcome), the current
in-memory registry, the timestamp used for name generation, the wall
clock, and the Gateway's response to `azure_client.deploy_template`
(consulted only if submission is reached).  Returns the raised-or-returned
outcome together with the registry after the call. -/
def deploy_template (templates : List (String × ArmTemplate))
    (deployments : List (String × DepInfo))
    (template_name resource_group_name : String) (parameters : Blob)
    (given_name : Option String) (nowStamp : String) (nowT : Nat)
    (gateway : Except String Nat) :
    Except DeployError DeployResult × List (String × DepInfo) :=
  match lookupReg templates template_name with
  | none => (.error (.templateNotFound template_name), deployments)
  | some tpl =>
    if !tpl.validation_errors.isEmpty then
      (.error (.validationFailed tpl.validation_errors), deployments)
    else
      let deployment_name := given_name.getD (template_name ++ "-" ++ nowStamp)
      match gateway with
      | .error e => (.error (.submissionFailed ("Failed to deploy template: " ++ e)), deployments)
      | .ok op =>
        let info : DepInfo :=
          { template_name := template_name
            resource_group := resource_group_name
            parameters := some parameters
            status := "started"
            start_time := some nowT
            operation := op }
        (.ok { deployment_name := deployment_name },
          insertReg deployments deployment_name info)

/-- Top-level error of a deployment as reported by the provider
(`deployment.properties.error`): code, message, optional target and the
nested detail errors. -/
structure ProviderError where
  code : String := ""
  message : String := ""
  target : Option String := none
  details : List (String × String × Option String) := []
  deriving DecidableEq, Repr

/-- One per-resource deployment operation as listed by
`deployment_operations.list`: provisioning state (absent when the object
lacks the attribute), target resource identity, optional status
message. -/
structure DeploymentOperation where
  provisioning_state : Option String := none
  resource_name : String := ""
  resource_type : String := ""
  status_message : Option String := none
  deriving DecidableEq, Repr

/-- One element of a failed-operations bundle. -/
structure FailedOp where
  resource_name : String
  resource_type : String
  provisioning_state : String
  status_message : Option String := none
  deriving DecidableEq, Repr

/-- One element of the `errors` array built by `get_deployment_errors`:
either an error dict (`code`/`message`/`target`, used for the top-level
error and each nested detail) or the single aggregate
`{"type": "failed_operations", "operations": [...]}` bundle. -/
inductive ErrorsItem where
  | errDict (code message : String) (target : Option String)
  | failedOps (operations : List FailedOp)
  deriving DecidableEq, Repr

/-- Result envelope of `get_deployment_errors`. -/
structure ErrorsResult where
  success : Bool
  deployment_name : String := ""
  resource_group : String := ""
  errors : List ErrorsItem := []
  total_errors : Nat := 0
  message : Option String := none
  deriving DecidableEq, Repr

/-- Embedding of `DeploymentManager.get_deployment_errors`.  The two
provider calls are inputs: fetching the deployment (its optional
top-level error) and listing its operations; `.error` models the call
raising.  An outer-fetch failure is caught and returned as
`success = False`; an operations-listing failure is caught, logged and
skipped, so no failed-operations bundle is appended. -/
def get_deployment_errors
    (deploymentFetch : Except String (Option ProviderError))
    (opsFetch : Except String (List DeploymentOperation))
    (deployment_name resource_group_name : String) : ErrorsResult :=
  match deploymentFetch with
  | .error e =>
    { success := false, message := some ("Error getting deployment errors: " ++ e) }
  | .ok errOpt =>
    let topErrors : List ErrorsItem :=
      match errOpt with
      | some err =>
        ErrorsItem.errDict err.code err.message err.target ::
          err.details.map (fun d => ErrorsItem.errDict d.1 d.2.1 d.2.2)
      | none => []
    let failed_operations : List FailedOp :=
      match opsFetch with
      | .error _ => []
      | .ok ops =>
        (ops.filter (fun o => o.provisioning_state == some "Failed")).map
          (fun o =>
            { resource_name := o.resource_name
              resource_type := o.resource_type
              provisioning_state := "Failed"
              status_message := o.status_message })
    let errors :=
      if failed_operations.isEmpty then topErrors
      else topErrors ++ [ErrorsItem.failedOps failed_operations]
    { success := true
      deployment_name := deployment_name
      resource_group := resource_group_name
      errors := errors
      total_errors := errors.length }

/-- A tracked `delete_operations` entry of the Deletion Tracker. -/
structure DeleteOp where
  operation : Nat := 0
  environment : String := ""
  project_name : String := ""
  started_at : String := ""
  status : String := "running"
  last_checked : Option String := none
  deriving DecidableEq, Repr

/-- Result envelope of `check_delete_progress`. -/
structure CheckResult where
  success : Bool
  status : Option String := none
  message : String
  environment : Option String := none
  project_name : Option String := none
  started_at : Option String := none
  deriving DecidableEq, Repr

/-- Embedding of `DeploymentManager.check_delete_progress`.  The single
provider poll (`azure_client.check_delete_status(operation)`, which never
raises — it catches internally and reports a status string) is passed as
`status_result`.  Returns the response envelope together with the
`delete_operations` map after the call. -/
def check_delete_progress (delete_operations : List (String × DeleteOp))
    (resource_group_name : String) (status_result : String) (nowIso : String) :
    CheckResult × List (String × DeleteOp) :=
  match lookupReg delete_operations resource_group_name with
  | none =>
    ({ success := false, message := "No delete operation found for this resource group" },
      delete_operations)
  | some op =>
    let op1 : DeleteOp := { op with status := status_result, last_checked := some nowIso }
    if status_result == "completed" then
      ({ success := true
         status := some "completed"
         message := "Environment " ++ op.environment ++ " deleted successfully"
         environment := some op.environment
         project_name := some op.project_name },
        eraseReg delete_operations resource_group_name)
    else if status_result == "failed" then
      ({ success := false
         status := some "failed"
         message := "Environment " ++ op.environment ++ " deletion failed"
         environment := some op.environment
         project_name := some op.project_name },
        eraseReg delete_operations resource_group_name)
    else
      ({ success := true
         status := some "running"
         message := "Environment " ++ op.environment ++ " deletion in progress..."
         environment := some op.environment
         project_name := some op.project_name
         started_at := some op.started_at },
        mutateReg delete_operations resource_group_name (fun _ => op1))

/-- Python truthiness of an optional blob value (`if error_details:`):
true exactly when present and non-empty. -/
def blobTruthy (b : Option Blob) : Bool :=
  match b with
  | some v => !v.isEmpty
  | none => false

/-- Embedding of the `app.py` helper `get_detailed_status_message`:
human status text from state and elapsed seconds (`final` only changes
the `Succeeded` wording). -/
def get_detailed_status_message (status : String) (elapsed_time : Nat)
    (final : Bool) : String :=
  let minutes := elapsed_time / 60
  let seconds := elapsed_time % 60
  let t :=
    if minutes > 0 then toString minutes ++ "m " ++ toString seconds ++ "s"
    else toString seconds ++ "s"
  if status == "Accepted" then "Deployment accepted and queued (" ++ t ++ ")"
  else if status == "Running" then "Deployment in progress (" ++ t ++ ")"
  else if status == "Creating" then "Creating resources (" ++ t ++ ")"
  else if status == "Updating" then "Updating resources (" ++ t ++ ")"
  else if status == "Deleting" then "Deleting resources (" ++ t ++ ")"
  else if status == "Succeeded" then
    if final then "Deployment completed successfully (" ++ t ++ ")"
    else "Deployment succeeded (" ++ t ++ ")"
  else if status == "Failed" then "Deployment failed (" ++ t ++ ")"
  else if status == "Canceled" then "Deployment canceled (" ++ t ++ ")"
  else "Status: " ++ status ++ " (" ++ t ++ ")"

/-- Embedding of the `app.py` helper `record_deployment_completion`:
builds a completion record from the Poller's data and the
`DeploymentManager.deployments` entry (absent keys default as in the
source), then upserts — `update_deployment` when a row for the name
already exists, `create_deployment` otherwise. -/
def record_deployment_completion (store : Store) (mgr : List (String × DepInfo))
    (deployment_name resource_group_name status : String) (duration_seconds : Nat)
    (outputs : Blob) (error_details : Option Blob) (now : Nat) : Store :=
  let info := lookupReg mgr deployment_name
  match get_deployment store deployment_name with
  | some _ =>
    let u : UpdateFields :=
      { status := some status
        end_time := some (some now)
        duration_seconds := some (some (duration_seconds : Int))
        outputs := some (some outputs)
        error_details := some error_details
        touch_updated_at := true }
    (update_deployment store deployment_name u now).1
  | none =>
    let record : DeploymentRecord :=
      { deployment_name := deployment_name
        resource_group := resource_group_name
        template_name := (info.map (·.template_name)).getD "unknown"
        location := ((info.bind (·.location)).getD "unknown")
        project := ((info.bind (·.project)).getD "unknown")
        environment := ((info.bind (·.environment)).getD "unknown")
        status := status
        start_time := info.bind (·.start_time)
        end_time := some now
        duration_seconds := some (duration_seconds : Int)
        user_initiated := "system"
        parameters := info.bind (·.parameters)
        outputs := some outputs
        error_details := error_details
        resource_count := 0
        resource_types := none
        retry_count := 0
        estimated_cost := none
        validation_passed := true
        vnet_address_space := none
        sql_password_complexity := true }
    (create_deployment store record now).1

/-- An entry of the `deployment_statuses` registry of `app.py`.  The dict
created by the `/deploy` route holds `status`/`started`/`completed`; the
Poller later writes the remaining keys (modelled with defaults until
first written). -/
structure RegEntry where
  status : String := "Running"
  started : Bool := true
  completed : Bool := false
  timestamp : String := ""
  elapsed_time : Nat := 0
  status_message : String := ""
  deriving DecidableEq, Repr

/-- What one iteration of the Poller's `while True` loop observes:
either its registry entry was deleted externally just before the
iteration, or the poll call raised, or the provider reported the
deployment absent (`None`), or the provider reported a state.  For a
`Failed` terminal poll, `errorFetch` is the outcome of the
`get_deployment_errors` call performed in that iteration (`some` the
errors list when it returned `success=True`, `none` when it raised or
reported failure); it is unused otherwise. -/
inductive IterInput where
  | removed
  | pollExc (msg : String)
  | pollNotFound
  | pollFound (provisioning_state timestamp : String) (outputs : Blob)
      (errorFetch : Option Blob)
  deriving DecidableEq, Repr

/-- Events broadcast by the Poller on the push channel: topic
`deployment_update` (the non-final form carries no `completed`/
`error_details` keys, modelled as `false`/`none`) and topic
`deployment_error`. -/
inductive Emit where
  | update (deployment_name status status_message timestamp : String)
      (elapsed_time : Nat) (outputs : Blob) (completed : Bool)
      (error_details : Option Blob)
  | error (deployment_name error : String)
  deriving DecidableEq, Repr

/-- Discriminator for `deployment_update` events. -/
def Emit.isUpdate : Emit → Bool
  | .update _ _ _ _ _ _ _ _ => true
  | .error _ _ => false

/-- Shared mutable state the monitoring task reads and writes: the
`deployment_statuses` registry, the `DeploymentManager.deployments`
registry, and the History Store. -/
structure MonState where
  statuses : List (String × RegEntry)
  mgr : List (String × DepInfo)
  store : Store
  deriving Repr

/-- Coalescing condition of `app.py` line 206:
`current_status != last_status or status_count % 6 == 0`. -/
def shouldEmitUpdate (current_status : String) (last_status : Option String)
    (status_count : Nat) : Bool :=
  (some current_status != last_status) || (status_count % 6 == 0)

/-- Embedding of the `while True` loop of `monitor_deployment_status`,
driven by the finite trace of iteration observations.  Arguments thread
the loop locals (`1`-based iteration index for bookkeeping, `last_status`,
`status_count`, elapsed seconds — the clock advances by the 10-second
poll interval per completed iteration).  Returns the emitted events
tagged with their iteration index, the shared state after the loop, and
whether the loop exited (`false` when the trace ran out with the loop
still running, in which case the enclosing function has not returned). -/
def monitorLoop (deployment_name resource_group_name : String) (startWall : Nat) :
    Nat → Option String → Nat → Nat → MonState → List IterInput →
    List (Nat × Emit) × MonState × Bool
  | _, _, _, _, st, [] => ([], st, false)
  | _, _, _, _, st, .removed :: _ =>
    ([], { st with statuses := eraseReg st.statuses deployment_name }, true)
  | i, _, _, _, st, .pollExc msg :: _ =>
    if (lookupReg st.statuses deployment_name).isNone then ([], st, true)
    else ([(i, Emit.error deployment_name msg)], st, true)
  | i, _, _, _, st, .pollNotFound :: _ =>
    if (lookupReg st.statuses deployment_name).isNone then ([], st, true)
    else ([(i, Emit.error deployment_name "Deployment not found in Azure")], st, true)
  | i, last_status, status_count, elapsed, st,
      .pollFound current_status ts outs errorFetch :: rest =>
    if (lookupReg st.statuses deployment_name).isNone then ([], st, true)
    else
      let status_message := get_detailed_status_message current_status elapsed false
      let statuses1 := mutateReg st.statuses deployment_name (fun e =>
        { e with status := current_status, timestamp := ts,
                 elapsed_time := elapsed, status_message := status_message })
      let mgr1 := mutateReg st.mgr deployment_name (fun d =>
        { d with status := current_status, timestamp := some ts, outputs := some outs })
      let emitNow := shouldEmitUpdate current_status last_status status_count
      let ems1 : List (Nat × Emit) :=
        if emitNow then
          [(i, Emit.update deployment_name current_status status_message ts elapsed outs
            false none)]
        else []
      let last1 := if emitNow then some current_status else last_status
      let count1 := status_count + 1
      if isTerminal current_status then
        let statuses2 := mutateReg statuses1 deployment_name
          (fun e => { e with completed := true })
        let error_details := if current_status == "Failed" then errorFetch else none
        let mgr2 := mutateReg mgr1 deployment_name (fun d =>
          if blobTruthy error_details then { d with error_details := error_details } else d)
        let store2 := record_deployment_completion st.store mgr2 deployment_name
          resource_group_name current_status elapsed outs error_details
          (startWall + elapsed)
        let finalMsg := get_detailed_status_message current_status elapsed true
        let finalEmit := Emit.update deployment_name current_status finalMsg ts elapsed
          outs true (if blobTruthy error_details then error_details else none)
        (ems1 ++ [(i, finalEmit)],
          { statuses := statuses2, mgr := mgr2, store := store2 }, true)
      else
        let r := monitorLoop deployment_name resource_group_name startWall
          (i + 1) last1 count1 (elapsed + 10)
          { st with statuses := statuses1, mgr := mgr1 } rest
        (ems1 ++ r.1, r.2)

/-- Embedding of `monitor_deployment_status`: runs the loop and, exactly
when the function returns (every exit path — `break`, the caught
exception, or the not-found path), executes the `finally` block
`if deployment_name in deployment_statuses: del
deployment_statuses[deployment_name]`. -/
def monitor_deployment_status (deployment_name resource_group_name : String)
    (startWall : Nat) (st : MonState) (trace : List IterInput) :
    List (Nat × Emit) × MonState × Bool :=
  let r := monitorLoop deployment_name resource_group_name startWall 1 none 0 0 st trace
  if r.2.2 then
    (r.1, { r.2.1 with statuses := eraseReg r.2.1.statuses deployment_name }, true)
  else r

/-- Iteration indices (1-based poll numbers) at which a
`deployment_update` event was emitted. -/
def updateEmitPolls (ems : List (Nat × Emit)) : List Nat :=
  (ems.filter (fun p => p.2.isUpdate)).map (·.1)

/-! Helper lemmas about the registry operations and the store columns. -/

/-- Looking up a key right after deleting it always fails. -/
theorem lookupReg_eraseReg_self {β : Type} (reg : List (String × β)) (key : String) :
    lookupReg (eraseReg reg key) key = none := by
  induction reg with
  | nil => rfl
  | cons p l ih =>
    simp only [eraseReg, List.filter_cons] at ih ⊢
    by_cases h : p.1 == key
    · have hb : (p.1 != key) = false := by simp [bne, h]
      simp [hb, ih]
    · have hb : (p.1 != key) = true := by simp [bne, h]
      simp [hb, lookupReg, h, ih]

/-- Mutating the entry under a key rewrites exactly that entry. -/
theorem lookupReg_mutateReg_self {β : Type} (reg : List (String × β)) (key : String)
    (f : β → β) :
    lookupReg (mutateReg reg key f) key = (lookupReg reg key).map f := by
  induction reg with
  | nil => rfl
  | cons p l ih =>
    by_cases h : p.1 == key <;> simp [mutateReg, lookupReg, h] at ih ⊢
    simpa [mutateReg] using ih

/-- Overwriting an optional value twice with the same directive is the
same as overwriting it once. -/
theorem getD_twice {α : Type} (o : Option α) (x : α) :
    o.getD (o.getD x) = o.getD x := by
  cases o <;> rfl

/-- Blob-column updates are idempotent: a present key stores a value that
does not depend on the previous cell. -/
theorem blobColUpdate_twice (f : Option (Option Blob)) (old : Option Blob) :
    blobColUpdate f (blobColUpdate f old) = blobColUpdate f old := by
  cases f <;> rfl

/-- Row-level idempotence of the `SET` clause. -/
theorem applyUpdate_twice (u : UpdateFields) (now : Nat) (r : Row) :
    applyUpdate u now (applyUpdate u now r) = applyUpdate u now r := by
  by_cases ht : u.touch_updated_at <;>
    simp [applyUpdate, ht, getD_twice, blobColUpdate_twice]

/-- Blobs that are absent or non-empty (never Python-falsy) are stored
unchanged by the truthiness serialisation. -/
def blobOk (b : Option Blob) : Bool :=
  match b with
  | some v => !v.isEmpty
  | none => true

theorem dumpsIfTruthy_of_ok (b : Option Blob) (h : blobOk b = true) :
    dumpsIfTruthy b = b := by
  cases b with
  | none => rfl
  | some v =>
    simp only [blobOk, Bool.not_eq_true'] at h
    simp [dumpsIfTruthy, h]

/-! Claim theorems. -/

/-- C1: Coalesced emission policy of the Poller.  An update event is
emitted exactly when the polled state differs from the last emitted state
or the poll counter is a multiple of 6 (every 6th iteration, counting
from 0 before the first poll).  In particular, 20 consecutive polls all
reporting the same unchanged non-terminal state emit exactly 4 update
events, on polls 1, 7, 13 and 19; and whenever the state differs from
the last emitted state the event is emitted regardless of the counter,
while for an unchanged state emission happens exactly on the counter
multiples of 6. -/
theorem poller_coalesced_emission_policy :
    updateEmitPolls (monitor_deployment_status "d" "rg" 0
        { statuses := [("d", {})], mgr := [], store := Store.empty }
        (List.replicate 20 (IterInput.pollFound "Running" "t" [] none))).1
      = [1, 7, 13, 19]
    ∧ (∀ current last count, last ≠ some current →
        shouldEmitUpdate current last count = true)
    ∧ (∀ current count,
        shouldEmitUpdate current (some current) count = true ↔ count % 6 = 0) := by
  refine ⟨by decide, ?_, ?_⟩
  · intro current last count h
    simp only [shouldEmitUpdate, Bool.or_eq_true, bne_iff_ne, ne_eq]
    exact Or.inl fun hh => h hh.symm
  · intro current count
    simp [shouldEmitUpdate]

/-- Witness for C1 at a concrete state change. -/
theorem poller_coalesced_emission_policy_witness :
    shouldEmitUpdate "Succeeded" (some "Running") 3 = true :=
  poller_coalesced_emission_policy.2.1 "Succeeded" (some "Running") 3 (by decide)

/-- C3: NotFoundMidPoll behavior.  From any reachable loop state whose
registry still holds the deployment, an iteration whose poll reports the
deployment absent emits exactly one `deployment_error` event
("Deployment not found in Azure"), exits the loop, and leaves the shared
state — in particular the History Store — completely unchanged. -/
theorem poller_not_found_mid_poll (deployment_name resource_group_name : String)
    (startWall i : Nat) (last : Option String) (count elapsed : Nat)
    (st : MonState) (rest : List IterInput)
    (h : (lookupReg st.statuses deployment_name).isSome = true) :
    monitorLoop deployment_name resource_group_name startWall i last count elapsed st
        (IterInput.pollNotFound :: rest) =
      ([(i, Emit.error deployment_name "Deployment not found in Azure")], st, true) := by
  have hn : (lookupReg st.statuses deployment_name).isNone = false := by
    cases hq : lookupReg st.statuses deployment_name <;> simp_all
  simp [monitorLoop, hn]

/-- Witness for C3 at a concrete one-entry registry. -/
theorem poller_not_found_mid_poll_witness :
    monitorLoop "d" "rg" 0 1 none 0 0
        { statuses := [("d", {})], mgr := [], store := Store.empty }
        [IterInput.pollNotFound] =
      ([(1, Emit.error "d" "Deployment not found in Azure")],
        { statuses := [("d", {})], mgr := [], store := Store.empty }, true) :=
  poller_not_found_mid_poll "d" "rg" 0 1 none 0 0
    { statuses := [("d", {})], mgr := [], store := Store.empty } [] (by decide)

/-- C10: Registry cleanup invariant of the Poller.  Whenever the
monitoring task returns (the loop exited on any path — terminal
finalization, deployment-not-found, external registry-entry removal, or
a caught poll exception — the `finally` block runs), the
`deployment_statuses` registry no longer holds an entry for the monitored
deployment name. -/
theorem poller_registry_cleanup (deployment_name resource_group_name : String)
    (startWall : Nat) (st : MonState) (trace : List IterInput)
    (h : (monitor_deployment_status deployment_name resource_group_name startWall
        st trace).2.2 = true) :
    lookupReg (monitor_deployment_status deployment_name resource_group_name startWall
        st trace).2.1.statuses deployment_name = none := by
  unfold monitor_deployment_status at h ⊢
  by_cases hx : (monitorLoop deployment_name resource_group_name startWall
      1 none 0 0 st trace).2.2
  · simp [hx, lookupReg_eraseReg_self]
  · simp [hx] at h

/-- Witness for C10 on a not-found exit path. -/
theorem poller_registry_cleanup_witness :
    lookupReg (monitor_deployment_status "d" "rg" 0
        { statuses := [("d", {})], mgr := [], store := Store.empty }
        [IterInput.pollNotFound]).2.1.statuses "d" = none :=
  poller_registry_cleanup "d" "rg" 0
    { statuses := [("d", {})], mgr := [], store := Store.empty }
    [IterInput.pollNotFound] (by decide)

/-- Positional effect of `update_deployment` on the table: the `SET`
clause is applied to exactly the rows whose `deployment_name` matches
(or nothing at all for an empty payload). -/
theorem update_rows_getElem (store : Store) (deployment_name : String)
    (u : UpdateFields) (now : Nat) (i : Nat) (hi : i < store.rows.length)
    (hi' : i < (update_deployment store deployment_name u now).1.rows.length) :
    (update_deployment store deployment_name u now).1.rows[i] =
      if u.hasFields then
        (if (store.rows[i]).deployment_name == deployment_name then
          applyUpdate u now (store.rows[i]) else store.rows[i])
      else store.rows[i] := by
  by_cases hf : u.hasFields <;> simp [update_deployment, hf]

/-- Formalisation of claim C2 exactly as stated: for every stored record
that is terminal, no `update_deployment` call may set `end_time` or
`duration_seconds` back to NULL, nor change `status` to a non-terminal
value. -/
def terminal_monotonicity_claim : Prop :=
  ∀ (store : Store) (deployment_name : String) (u : UpdateFields) (now i : Nat)
    (hi : i < store.rows.length)
    (hi' : i < (update_deployment store deployment_name u now).1.rows.length),
    isTerminal (store.rows[i]).status = true →
    (isTerminal ((update_deployment store deployment_name u now).1.rows[i]).status = true
      ∧ ((store.rows[i]).end_time ≠ none →
          ((update_deployment store deployment_name u now).1.rows[i]).end_time ≠ none)
      ∧ ((store.rows[i]).duration_seconds ≠ none →
          ((update_deployment store deployment_name u now).1.rows[i]).duration_seconds ≠ none))

/-- Store holding one terminal (`Succeeded`) record, as written by
`create_deployment`. -/
def storeWithTerminalRow : Store :=
  (create_deployment Store.empty
    { deployment_name := "t1", status := "Succeeded", end_time := some 50,
      duration_seconds := some 50 } 0).1

/-- An `updates` payload that explicitly reverts the terminal columns. -/
def revertingUpdate : UpdateFields :=
  { status := some "Running", end_time := some none, duration_seconds := some none }

/-- C2 counterexample: `update_deployment` guards nothing.  Applied to a
stored `Succeeded` record, the payload
`{status: "Running", end_time: None, duration_seconds: None}` reverts the
status to non-terminal and both completion columns to NULL, so the claim
as stated is false. -/
theorem terminal_monotonicity_claim_false : ¬ terminal_monotonicity_claim := by
  intro h
  have h2 := h storeWithTerminalRow "t1" revertingUpdate 9 0 (by decide) (by decide)
    (by decide)
  exact absurd h2.1 (by decide)

/-- C2 amended: the store itself never guards terminal records — it
applies exactly the requested columns.  Monotonicity therefore holds
precisely for update payloads that do not contain the `status`,
`end_time` or `duration_seconds` keys: such a call leaves every row's
`status`, `end_time` and `duration_seconds` unchanged, so a terminal row
stays terminal with its completion columns intact. -/
theorem update_without_terminal_keys_is_monotone (store : Store)
    (deployment_name : String) (u : UpdateFields) (now : Nat)
    (hs : u.status = none) (he : u.end_time = none) (hd : u.duration_seconds = none)
    (i : Nat) (hi : i < store.rows.length)
    (hi' : i < (update_deployment store deployment_name u now).1.rows.length)
    (hterm : isTerminal (store.rows[i]).status = true) :
    isTerminal ((update_deployment store deployment_name u now).1.rows[i]).status = true
      ∧ ((update_deployment store deployment_name u now).1.rows[i]).end_time =
          (store.rows[i]).end_time
      ∧ ((update_deployment store deployment_name u now).1.rows[i]).duration_seconds =
          (store.rows[i]).duration_seconds := by
  rw [update_rows_getElem store deployment_name u now i hi hi']
  by_cases hf : u.hasFields
  · simp only [hf, if_true]
    by_cases hm : (store.rows[i]).deployment_name == deployment_name
    · simp [hm, applyUpdate, hs, he, hd, hterm]
    · simp [hm, hterm]
  · simp [hf, hterm]

/-- Witness for the amended C2 on a concrete terminal row and a payload
touching only `outputs`. -/
theorem update_without_terminal_keys_is_monotone_witness :
    isTerminal ((update_deployment storeWithTerminalRow "t1"
        { outputs := some (some ["o"]) } 9).1.rows.get ⟨0, by decide⟩).status = true :=
  (update_without_terminal_keys_is_monotone storeWithTerminalRow "t1"
    { outputs := some (some ["o"]) } 9 rfl rfl rfl 0 (by decide) (by decide)
    (by decide)).1

/-- Formalisation of claim C4 exactly as stated: `create(record)` followed
by `get(deployment_name)` returns a record equal to the input on every
field.  Timestamp and blob encodings are already canonical in the
embedding (the SQLite text round trip is lossless), and the bookkeeping
the call itself performs on the input is accounted for: `create`
stamps `created_at`/`updated_at := now` on the record before inserting,
and the store assigns the AUTOINCREMENT `id`. -/
def round_trip_claim : Prop :=
  ∀ (r : DeploymentRecord) (now : Nat),
    get_deployment (create_deployment Store.empty r now).1 r.deployment_name =
      some { r with id := some 1, created_at := some now, updated_at := some now }

/-- C4 counterexample: an empty opaque blob does not round-trip.  A record
whose `parameters` is the empty dict is Python-falsy, so
`create_deployment` stores NULL and `get_deployment` returns
`parameters = None` — a different value, not a different encoding. -/
theorem round_trip_claim_false : ¬ round_trip_claim := by
  intro h
  have h2 := h { deployment_name := "n", parameters := some [] } 5
  exact absurd h2 (by decide)

/-- C4 amended: the round trip is exact on every field provided each of
the four opaque columns (`parameters`, `outputs`, `error_details`,
`resource_types`) is either absent or non-empty; an empty blob is
canonicalised to NULL by `create`.  Stated over any store not already
holding the name (the claim's fresh-create reading). -/
theorem create_then_get_round_trip (store : Store) (r : DeploymentRecord) (now : Nat)
    (hfresh : ∀ row ∈ store.rows, (row.deployment_name == r.deployment_name) = false)
    (hp : blobOk r.parameters = true) (ho : blobOk r.outputs = true)
    (he : blobOk r.error_details = true) (ht : blobOk r.resource_types = true) :
    get_deployment (create_deployment store r now).1 r.deployment_name =
      some { r with id := some store.nextId, created_at := some now,
                    updated_at := some now } := by
  unfold get_deployment create_deployment
  rw [List.find?_append]
  have h1 : store.rows.find? (fun row => row.deployment_name == r.deployment_name)
      = none := by
    rw [List.find?_eq_none]
    intro x hx
    rw [hfresh x hx]
    exact Bool.false_ne_true
  rw [h1]
  simp [row_to_record, dumpsIfTruthy_of_ok _ hp, dumpsIfTruthy_of_ok _ ho,
    dumpsIfTruthy_of_ok _ he, dumpsIfTruthy_of_ok _ ht]

/-- Witness for the amended C4 on a concrete record with a non-empty
parameters blob. -/
theorem create_then_get_round_trip_witness :
    get_deployment (create_deployment Store.empty
        { deployment_name := "n", parameters := some ["a"] } 7).1 "n" =
      some { deployment_name := "n", parameters := some ["a"], id := some 1,
             created_at := some 7, updated_at := some 7 } :=
  create_then_get_round_trip Store.empty
    { deployment_name := "n", parameters := some ["a"] } 7
    (by intro row hrow; simp [Store.empty] at hrow) rfl rfl rfl rfl

/-- C5: History Store update idempotence.  Applying the same
`update(name, fields)` payload twice yields the same stored table state
as applying it once (the embedding passes the wall clock explicitly, so
"the same payload" is applied at the same instant; only the presence of
an `updated_at` key consults the clock at all). -/
theorem update_deployment_idempotent (store : Store) (deployment_name : String)
    (u : UpdateFields) (now : Nat) :
    (update_deployment (update_deployment store deployment_name u now).1
        deployment_name u now).1 =
      (update_deployment store deployment_name u now).1 := by
  by_cases hf : u.hasFields
  · simp only [update_deployment, hf, if_true, List.map_map]
    congr 1
    apply List.map_congr_left
    intro r _
    by_cases hm : r.deployment_name == deployment_name
    · simp only [Function.comp_apply, hm, if_true]
      by_cases hm2 : (applyUpdate u now r).deployment_name == deployment_name
      · simp [hm2, applyUpdate_twice]
      · simp [hm2]
    · have hm' : ¬(r.deployment_name = deployment_name) := by simpa using hm
      simp [hm, hm']
  · simp [update_deployment, hf]

/-- C6: Submission-failure atomicity of `deploy_template`.  Whenever the
call raises (unknown template, validation failure, or a Gateway-rejected
start call), the in-memory deployment registry is returned unchanged —
nothing is registered. -/
theorem deploy_template_error_atomicity
    (templates : List (String × ArmTemplate)) (deployments : List (String × DepInfo))
    (template_name resource_group_name : String) (parameters : Blob)
    (given_name : Option String) (nowStamp : String) (nowT : Nat)
    (gateway : Except String Nat) (e : DeployError)
    (h : (deploy_template templates deployments template_name resource_group_name
        parameters given_name nowStamp nowT gateway).1 = .error e) :
    (deploy_template templates deployments template_name resource_group_name
        parameters given_name nowStamp nowT gateway).2 = deployments := by
  unfold deploy_template at h ⊢
  cases hlk : lookupReg templates template_name with
  | none => simp [hlk]
  | some tpl =>
    by_cases hv : tpl.validation_errors.isEmpty
    · cases gateway with
      | error g => simp [hlk, hv]
      | ok op => simp [hlk, hv] at h
    · simp [hlk, hv]

/-- Witness for C6 on a Gateway-rejected start call against a valid
template. -/
theorem deploy_template_error_atomicity_witness :
    (deploy_template [("t", {})] [] "t" "rg" [] none "20240101" 0
        (Except.error "boom")).2 = ([] : List (String × DepInfo)) :=
  deploy_template_error_atomicity [("t", {})] [] "t" "rg" [] none "20240101" 0
    (Except.error "boom")
    (DeployError.submissionFailed "Failed to deploy template: boom") rfl

/-- C7: Diagnostics extraction shape.  For a deployment whose top-level
error carries exactly 2 nested details and whose operations include
exactly 1 with provisioning state `Failed`, `get_deployment_errors`
returns `success=True` and an `errors` array of length 4, with the
top-level error as element 0 (then the 2 details, then the single
failed-operations bundle). -/
theorem diagnostics_extraction_shape (err : ProviderError)
    (ops : List DeploymentOperation) (deployment_name resource_group_name : String)
    (hdet : err.details.length = 2)
    (hfail : (ops.filter (fun o => o.provisioning_state == some "Failed")).length = 1) :
    (get_deployment_errors (.ok (some err)) (.ok ops)
        deployment_name resource_group_name).success = true
    ∧ (get_deployment_errors (.ok (some err)) (.ok ops)
        deployment_name resource_group_name).errors.length = 4
    ∧ (get_deployment_errors (.ok (some err)) (.ok ops)
        deployment_name resource_group_name).errors.head? =
      some (ErrorsItem.errDict err.code err.message err.target) := by
  have hne : ((ops.filter (fun o => o.provisioning_state == some "Failed")).map
      (fun o => ({ resource_name := o.resource_name
                   resource_type := o.resource_type
                   provisioning_state := "Failed"
                   status_message := o.status_message } : FailedOp))).isEmpty = false := by
    cases hq : ops.filter (fun o => o.provisioning_state == some "Failed") with
    | nil => rw [hq] at hfail; simp at hfail
    | cons a l => simp
  refine ⟨rfl, ?_, ?_⟩
  · simp [get_deployment_errors, hne, hdet, hfail]
  · simp [get_deployment_errors, hne]

/-- Witness for C7 on a concrete mocked failed deployment. -/
theorem diagnostics_extraction_shape_witness :
    (get_deployment_errors
        (.ok (some { code := "C"
                     message := "M"
                     details := [("c1", "m1", none), ("c2", "m2", none)] }))
        (.ok [{ provisioning_state := some "Failed"
                resource_name := "r"
                resource_type := "T" }]) "d" "rg").errors.length = 4 :=
  (diagnostics_extraction_shape
    { code := "C", message := "M", details := [("c1", "m1", none), ("c2", "m2", none)] }
    [{ provisioning_state := some "Failed", resource_name := "r", resource_type := "T" }]
    "d" "rg" (by decide) (by decide)).2.1

/-- Average duration as claim C8 words it (specification-following
definition, for comparison with the code): the mean `duration_seconds`
over terminal records (`Succeeded`, `Failed` or `Canceled`) with a known
duration, 0 when there are none. -/
def specAverageDurationTerminal (store : Store) : Rat :=
  let ds := (store.rows.filter (fun r =>
    isTerminal r.status && r.duration_seconds.isSome)).filterMap
      (fun r => r.duration_seconds)
  if ds.isEmpty then 0 else ((ds.sum : Int) : Rat) / (ds.length : Rat)

/-- Formalisation of claim C8 exactly as stated: the statistics query's
average duration is computed over all terminal records with known
duration. -/
def average_duration_claim : Prop :=
  ∀ store : Store,
    (get_deployment_statistics store).average_duration_seconds =
      specAverageDurationTerminal store

/-- Store holding a single `Canceled` record with a known duration of
100 seconds. -/
def canceledOnlyStore : Store :=
  (create_deployment Store.empty
    { deployment_name := "c", status := "Canceled", duration_seconds := some 100 } 0).1

/-- C8 counterexample: the SQL filter is `status IN ('Succeeded',
'Failed')`, so a `Canceled` record with known duration is excluded.  On a
store holding only that record the query reports 0 while the claimed
terminal-average is 100. -/
theorem average_duration_claim_false : ¬ average_duration_claim := by
  intro h
  have h2 := h canceledOnlyStore
  have hL : (get_deployment_statistics canceledOnlyStore).average_duration_seconds
      = 0 := rfl
  have hR : specAverageDurationTerminal canceledOnlyStore
      = ((100 : Int) : Rat) / ((1 : Nat) : Rat) := rfl
  rw [hL, hR] at h2
  norm_num at h2

/-- Completed-only average (specification-style definition matching the
code's actual filter): mean over `Succeeded`/`Failed` records with known
duration. -/
def specAverageDurationCompleted (store : Store) : Rat :=
  let ds := (store.rows.filter (fun r =>
    (r.status == "Succeeded" || r.status == "Failed")
      && r.duration_seconds.isSome)).filterMap (fun r => r.duration_seconds)
  if ds.isEmpty then 0 else ((ds.sum : Int) : Rat) / (ds.length : Rat)

/-- Fusion of the SQL-style selection with a filter-then-project
selection. -/
theorem filterMap_duration_eq (rows : List Row) (p : Row → Bool) :
    rows.filterMap (fun r => if p r then r.duration_seconds else none) =
      (rows.filter (fun r => p r && r.duration_seconds.isSome)).filterMap
        (fun r => r.duration_seconds) := by
  induction rows with
  | nil => rfl
  | cons a l ih =>
    by_cases hp : p a
    · cases hd : a.duration_seconds <;>
        simp [List.filterMap_cons, List.filter_cons, hp, hd, ih]
    · simp [List.filterMap_cons, List.filter_cons, hp, ih]

/-- C8 amended: the average duration reported by the statistics query is
computed only over records with status `Succeeded` or `Failed` that have
a known `duration_seconds`; `Canceled` records are excluded. -/
theorem average_duration_over_succeeded_failed (store : Store) :
    (get_deployment_statistics store).average_duration_seconds =
      specAverageDurationCompleted store := by
  simp only [get_deployment_statistics, sqlAvgDuration, specAverageDurationCompleted]
  rw [filterMap_duration_eq store.rows
    (fun r => r.status == "Succeeded" || r.status == "Failed")]

/-- C9: Deletion Tracker terminal cleanup.  With an in-flight delete
tracked for a resource group, a `check_delete_progress` observing a
terminal provider result (`completed` or `failed`) removes the tracked
entry — so an immediately subsequent check reports that no delete
operation is found — while a non-terminal result leaves the entry
tracked (with its `status`/`last_checked` fields refreshed). -/
theorem delete_tracker_terminal_cleanup (ops : List (String × DeleteOp))
    (resource_group_name status_result nowIso : String) (op : DeleteOp)
    (h : lookupReg ops resource_group_name = some op) :
    ((status_result = "completed" ∨ status_result = "failed") →
      lookupReg (check_delete_progress ops resource_group_name status_result nowIso).2
          resource_group_name = none
      ∧ ∀ st2 now2,
          (check_delete_progress
              (check_delete_progress ops resource_group_name status_result nowIso).2
              resource_group_name st2 now2).1 =
            { success := false
              message := "No delete operation found for this resource group" })
    ∧ (status_result ≠ "completed" → status_result ≠ "failed" →
        lookupReg (check_delete_progress ops resource_group_name status_result nowIso).2
            resource_group_name =
          some { op with status := status_result, last_checked := some nowIso }) := by
  constructor
  · rintro (hc | hc) <;> subst hc <;>
      exact ⟨by simp [check_delete_progress, h, lookupReg_eraseReg_self],
        fun st2 now2 => by
          simp [check_delete_progress, h, lookupReg_eraseReg_self]⟩
  · intro h1 h2
    have hb1 : (status_result == "completed") = false := by
      simpa using h1
    have hb2 : (status_result == "failed") = false := by
      simpa using h2
    simp [check_delete_progress, h, hb1, hb2, lookupReg_mutateReg_self]

/-- Witness for C9 on a concrete completed deletion. -/
theorem delete_tracker_terminal_cleanup_witness :
    lookupReg (check_delete_progress [("rg", {})] "rg" "completed" "t").2 "rg" = none :=
  ((delete_tracker_terminal_cleanup [("rg", {})] "rg" "completed" "t" {} (by decide)).1
    (Or.inl rfl)).1
